import Mathlib

/-!
Shallow embedding of the grocery-shop backend (`main.py`, `schemas.py`).

The document store is modelled as association lists from identifier strings
to documents; the HTTP handlers become pure functions that thread the store
explicitly and return `Except`-style results for the error paths raised via
`HTTPException`.  Prices are modelled as exact rationals; `round(x, 2)` is
Python's round-half-to-even at two decimal places.
-/

set_option autoImplicit false

namespace GroceryShop

/-- Product document (schemas.py `Product`). -/
structure Product where
  name : String
  price : ℚ
  unit : String
  stock : ℤ
  image : Option String
  category : Option String
  in_stock : Bool
deriving DecidableEq, Repr

/-- Slot document (schemas.py `Slot`). -/
structure Slot where
  label : String
  capacity : ℤ
  booked : ℤ
deriving DecidableEq, Repr

/-- One requested order line (schemas.py `OrderItem`). -/
structure OrderItem where
  product_id : String
  qty : ℤ
deriving DecidableEq, Repr

/-- One denormalized item record as appended to `items_doc` in `create_order`. -/
structure ItemDoc where
  product_id : String
  name : String
  unit : String
  price : ℚ
  qty : ℤ
  line_total : ℚ
deriving DecidableEq, Repr

/-- The `order_doc` persisted by `create_order`. -/
structure OrderDoc where
  customer_name : String
  phone : String
  slot_id : String
  items : List ItemDoc
  note : Option String
  total : ℚ
  status : String
deriving DecidableEq, Repr

/-- The whole document store: three collections keyed by identifier strings,
plus a counter used to generate fresh document identifiers. -/
structure Store where
  products : List (String × Product)
  slots : List (String × Slot)
  orders : List (String × OrderDoc)
  nextId : Nat
deriving DecidableEq, Repr

/-- Request body of `POST /orders` (main.py `CreateOrderRequest`). -/
structure CreateOrderRequest where
  customer_name : String
  phone : String
  slot_id : String
  items : List OrderItem
  note : Option String
deriving DecidableEq, Repr

/-- Response body of a successful `POST /orders`. -/
structure OrderResponse where
  order_id : String
  total : ℚ
  status : String
deriving DecidableEq, Repr

/-- The distinct `HTTPException`s raised by `create_order` (via `oid` and the
handler body). -/
inductive OrderError where
  | invalidIdentifier
  | slotNotFound
  | slotFull
  | productNotFound (pid : String)
deriving DecidableEq, Repr

/-- HTTP status code attached to each error in main.py. -/
def statusCode : OrderError → Nat
  | .invalidIdentifier => 400
  | .slotNotFound => 404
  | .slotFull => 400
  | .productNotFound _ => 404

/-- A character admissible in a BSON ObjectId hex string. -/
def isHexChar (c : Char) : Bool :=
  c.isDigit || (('a' ≤ c) && (c ≤ 'f')) || (('A' ≤ c) && (c ≤ 'F'))

/-- main.py `oid`: `ObjectId(id_str)` succeeds exactly on 24-character hex
strings and normalizes the hex case; failure raises the 400
`Invalid ID format` error.  We model the resulting ObjectId by the lowercase
hex string. -/
def oid (s : String) : Option String :=
  if s.length = 24 && s.data.all isHexChar then some s.toLower else none

/-- Model of `find_one({"_id": k})` over an association-list collection: first entry
whose key matches. -/
def findFirst {α : Type} (l : List (String × α)) (k : String) : Option α :=
  match l with
  | [] => none
  | (k', v) :: rest => if k' = k then some v else findFirst rest k

/-- Model of `db["product"].find_one({"_id": k, "in_stock": True})`: first product
document matching both the identifier and the in-stock flag. -/
def findProduct (l : List (String × Product)) (k : String) : Option Product :=
  match l with
  | [] => none
  | (k', v) :: rest => if k' = k ∧ v.in_stock then some v else findProduct rest k

/-- Model of the `update_one` call incrementing `booked` by one: increment
the `booked` field of the first slot whose key matches. -/
def incBookedFirst (l : List (String × Slot)) (k : String) : List (String × Slot) :=
  match l with
  | [] => []
  | (k', v) :: rest =>
    if k' = k then (k', { v with booked := v.booked + 1 }) :: rest
    else (k', v) :: incBookedFirst rest k

/-- Identifier generated by `create_document` for the `n`-th insertion. -/
def genId (n : Nat) : String := "doc_" ++ toString n

/-- Python `round` to the nearest integer: round-half-to-even. -/
def roundHalfEven (q : ℚ) : ℤ :=
  if q - (⌊q⌋ : ℚ) < 1/2 then ⌊q⌋
  else if (1/2 : ℚ) < q - (⌊q⌋ : ℚ) then ⌊q⌋ + 1
  else if ⌊q⌋ % 2 = 0 then ⌊q⌋ else ⌊q⌋ + 1

/-- Python `round(q, 2)`. -/
def round2 (q : ℚ) : ℚ := (roundHalfEven (q * 100) : ℚ) / 100

/-- The item loop of `create_order` (main.py lines 98–113): validates each
item's product id, looks the product up requiring `in_stock`, accumulates the
total and builds the denormalized `items_doc` list.  The first failing item
aborts the whole loop. -/
def buildItems (s : Store) : List OrderItem → Except OrderError (ℚ × List ItemDoc)
  | [] => .ok (0, [])
  | item :: rest =>
    match oid item.product_id with
    | none => .error .invalidIdentifier
    | some k =>
      match findProduct s.products k with
      | none => .error (.productNotFound item.product_id)
      | some prod =>
        let line_total : ℚ := prod.price * (item.qty : ℚ)
        match buildItems s rest with
        | .error e => .error e
        | .ok (t, docs) =>
          .ok (line_total + t,
            { product_id := item.product_id, name := prod.name, unit := prod.unit,
              price := prod.price, qty := item.qty, line_total := line_total } :: docs)

/-- main.py `create_order` (`POST /orders`): validates the slot, checks its
remaining capacity, validates and prices every item, then persists the order
(status `"confirmed"`) and increments the slot's `booked` counter.  The store
is threaded explicitly; an `HTTPException` leaves it as it was at the raise
point (all raises occur before any write). -/
def create_order (s : Store) (payload : CreateOrderRequest) :
    Store × Except OrderError OrderResponse :=
  match oid payload.slot_id with
  | none => (s, .error .invalidIdentifier)
  | some k =>
    match findFirst s.slots k with
    | none => (s, .error .slotNotFound)
    | some slot =>
      if max (slot.capacity - slot.booked) 0 ≤ 0 then (s, .error .slotFull)
      else
        match buildItems s payload.items with
        | .error e => (s, .error e)
        | .ok (total, items_doc) =>
          let order_doc : OrderDoc :=
            { customer_name := payload.customer_name, phone := payload.phone,
              slot_id := payload.slot_id, items := items_doc, note := payload.note,
              total := round2 total, status := "confirmed" }
          let order_id := genId s.nextId
          let s1 : Store :=
            { s with orders := s.orders ++ [(order_id, order_doc)],
                     nextId := s.nextId + 1 }
          let s2 : Store := { s1 with slots := incBookedFirst s1.slots k }
          (s2, .ok { order_id := order_id, total := order_doc.total,
                     status := "confirmed" })

/-- Projection of a product entry onto the `GET /products` response shape. -/
structure ProductView where
  id : String
  name : String
  price : ℚ
  unit : String
  stock : ℤ
  image : Option String
  category : Option String
  in_stock : Bool
deriving DecidableEq, Repr

/-- Projection of a slot entry onto the `GET /slots` response shape, with the
derived `available` field. -/
structure SlotView where
  id : String
  label : String
  capacity : ℤ
  booked : ℤ
  available : ℤ
deriving DecidableEq, Repr

/-- Model of `get_documents(coll, query)`: all documents matching the query, in
collection order. -/
def get_documents {α : Type} (l : List (String × α)) (q : α → Bool) :
    List (String × α) :=
  l.filter fun p => q p.2

/-- main.py `list_products` (`GET /products`): documents matching
`{"in_stock": True}`, each with its identifier exposed. -/
def list_products (s : Store) : List ProductView :=
  (get_documents s.products fun p => p.in_stock).map fun p =>
    { id := p.1, name := p.2.name, price := p.2.price, unit := p.2.unit,
      stock := p.2.stock, image := p.2.image, category := p.2.category,
      in_stock := p.2.in_stock }

/-- main.py `list_slots` (`GET /slots`): every slot document, each with its
identifier and `available = max(capacity - booked, 0)`. -/
def list_slots (s : Store) : List SlotView :=
  (get_documents s.slots fun _ => true).map fun p =>
    { id := p.1, label := p.2.label, capacity := p.2.capacity,
      booked := p.2.booked,
      available := max (p.2.capacity - p.2.booked) 0 }

/-- The fixed demo product catalog seeded by main.py `seed`. -/
def seedCatalog : List Product :=
  [ { name := "Bananas", price := 79/100, unit := "each", stock := 200,
      image := some "https://images.unsplash.com/photo-1571772996211-2f02c9727629?w=400&q=80",
      category := some "Produce", in_stock := true },
    { name := "Milk", price := 249/100, unit := "1L", stock := 120,
      image := some "https://images.unsplash.com/photo-1580910051074-3eb694886505?w=400&q=80",
      category := some "Dairy", in_stock := true },
    { name := "Bread", price := 199/100, unit := "loaf", stock := 80,
      image := some "https://images.unsplash.com/photo-1542838132-92c53300491e?w=400&q=80",
      category := some "Bakery", in_stock := true },
    { name := "Eggs", price := 349/100, unit := "12", stock := 90,
      image := some "https://images.unsplash.com/photo-1517959105821-eaf2591984dd?w=400&q=80",
      category := some "Dairy", in_stock := true } ]

/-- The fixed demo pickup slots seeded by main.py `seed`. -/
def seedSlots : List Slot :=
  [ { label := "Today 10:00–10:30", capacity := 10, booked := 0 },
    { label := "Today 10:30–11:00", capacity := 10, booked := 0 },
    { label := "Today 5:00–5:30", capacity := 12, booked := 0 },
    { label := "Tomorrow 10:00–10:30", capacity := 10, booked := 0 },
    { label := "Tomorrow 5:00–5:30", capacity := 12, booked := 0 } ]

/-- Runs `create_document("product", p)` for each catalog entry in order. -/
def insertProducts (s : Store) : List Product → Store
  | [] => s
  | p :: rest =>
    insertProducts
      { s with products := s.products ++ [(genId s.nextId, p)],
               nextId := s.nextId + 1 } rest

/-- Runs `create_document("slot", sl)` for each demo slot in order. -/
def insertSlots (s : Store) : List Slot → Store
  | [] => s
  | sl :: rest =>
    insertSlots
      { s with slots := s.slots ++ [(genId s.nextId, sl)],
               nextId := s.nextId + 1 } rest

/-- The product-seeding half of main.py `seed`: inserts the demo catalog only
when `db["product"].count_documents({}) == 0`. -/
def seedProductsStep (s : Store) : Store :=
  if s.products.length = 0 then insertProducts s seedCatalog else s

/-- The slot-seeding half of main.py `seed`: inserts the demo slots only when
`db["slot"].count_documents({}) == 0`, checked after the product step just as
in the handler body. -/
def seedSlotsStep (s : Store) : Store :=
  if s.slots.length = 0 then insertSlots s seedSlots else s

/-- main.py `seed` (`POST /seed`): the product step followed by the slot
step. -/
def seed (s : Store) : Store := seedSlotsStep (seedProductsStep s)

/-- Composition of `oid` on an item's product id with the in-stock product
lookup of `create_order`: the composite that decides whether an item is
orderable. -/
def lookupItem (s : Store) (it : OrderItem) : Option Product :=
  (oid it.product_id).bind fun k => findProduct s.products k

/-- How a persisted item record relates to the requested item and the product
documents stored at order time: the product id is echoed, and name, unit and
price are snapshotted from the product found by the in-stock lookup. -/
def snapshotRel (s : Store) (it : OrderItem) (d : ItemDoc) : Prop :=
  ∃ k p, oid it.product_id = some k ∧ findProduct s.products k = some p ∧
    d.product_id = it.product_id ∧ d.name = p.name ∧ d.unit = p.unit ∧
    d.price = p.price ∧ d.qty = it.qty ∧ d.line_total = p.price * (it.qty : ℚ)

/-! ### Stock and quantity independence -/

/-- Rewrite every product's `stock` field according to `f`, leaving all other
fields and collections untouched. -/
def mapStocks (f : String → ℤ) (l : List (String × Product)) :
    List (String × Product) :=
  l.map fun p => (p.1, { p.2 with stock := f p.1 })

/-- A store differing from `s` only in the products' `stock` counters. -/
def setStocks (f : String → ℤ) (s : Store) : Store :=
  { s with products := mapStocks f s.products }

/-- A request differing from `r` only in the items' quantities. -/
def setQtys (g : OrderItem → ℤ) (r : CreateOrderRequest) : CreateOrderRequest :=
  { r with items := r.items.map fun it => { it with qty := g it } }

/-! ### Concrete sample data for witnesses -/

/-- A small store: two in-stock products, one out-of-stock product, one open
slot and one full slot. -/
def sampleStore : Store :=
  { products :=
      [("bbbbbbbbbbbbbbbbbbbbbbbb",
        { name := "Bananas", price := 79/100, unit := "each", stock := 200,
          image := none, category := some "Produce", in_stock := true }),
       ("cccccccccccccccccccccccc",
        { name := "Milk", price := 249/100, unit := "1L", stock := 120,
          image := none, category := some "Dairy", in_stock := true }),
       ("eeeeeeeeeeeeeeeeeeeeeeee",
        { name := "Bread", price := 199/100, unit := "loaf", stock := 80,
          image := none, category := some "Bakery", in_stock := false })],
    slots :=
      [("aaaaaaaaaaaaaaaaaaaaaaaa",
        { label := "Today 10:00-10:30", capacity := 10, booked := 3 }),
       ("dddddddddddddddddddddddd",
        { label := "Today 17:00-17:30", capacity := 10, booked := 10 })],
    orders := [], nextId := 0 }

/-- The spec's worked example: 3 Bananas at 0.79 and 2 Milk at 2.49. -/
def sampleRequest : CreateOrderRequest :=
  { customer_name := "Ada", phone := "555-0100",
    slot_id := "aaaaaaaaaaaaaaaaaaaaaaaa",
    items := [{ product_id := "bbbbbbbbbbbbbbbbbbbbbbbb", qty := 3 },
              { product_id := "cccccccccccccccccccccccc", qty := 2 }],
    note := none }

/-- Response of `sampleRequest` against `sampleStore`: total 7.35. -/
def sampleResp : OrderResponse :=
  { order_id := "doc_0", total := 147/20, status := "confirmed" }

/-- A request against the full slot. -/
def sampleFullRequest : CreateOrderRequest :=
  { customer_name := "Ada", phone := "555-0100",
    slot_id := "dddddddddddddddddddddddd",
    items := [{ product_id := "bbbbbbbbbbbbbbbbbbbbbbbb", qty := 1 }],
    note := none }

/-- A request whose second item names the out-of-stock product. -/
def sampleBadProductRequest : CreateOrderRequest :=
  { customer_name := "Ada", phone := "555-0100",
    slot_id := "aaaaaaaaaaaaaaaaaaaaaaaa",
    items := [{ product_id := "bbbbbbbbbbbbbbbbbbbbbbbb", qty := 1 },
              { product_id := "eeeeeeeeeeeeeeeeeeeeeeee", qty := 2 }],
    note := none }

/-- A request with a malformed slot identifier. -/
def sampleInvalidRequest : CreateOrderRequest :=
  { customer_name := "Ada", phone := "555-0100", slot_id := "not-an-objectid",
    items := [], note := none }

/-- A request with an empty items list against the open slot. -/
def sampleEmptyRequest : CreateOrderRequest :=
  { customer_name := "Ada", phone := "555-0100",
    slot_id := "aaaaaaaaaaaaaaaaaaaaaaaa", items := [], note := none }

/-! ### Helper lemmas about the store primitives -/

theorem findFirst_incBookedFirst_self (l : List (String × Slot)) (k : String) :
    findFirst (incBookedFirst l k) k =
      (findFirst l k).map fun sl => { sl with booked := sl.booked + 1 } := by
  induction l with
  | nil => rfl
  | cons p rest ih =>
    obtain ⟨k', v⟩ := p
    by_cases h : k' = k
    · simp [incBookedFirst, findFirst, h]
    · simp [incBookedFirst, findFirst, h, ih]

theorem findFirst_incBookedFirst_ne (l : List (String × Slot)) (k k' : String)
    (h : k' ≠ k) :
    findFirst (incBookedFirst l k) k' = findFirst l k' := by
  induction l with
  | nil => rfl
  | cons p rest ih =>
    obtain ⟨k₀, v⟩ := p
    simp only [incBookedFirst]
    by_cases hk : k₀ = k
    · rw [if_pos hk]
      have h1 : k₀ ≠ k' := fun hh => h (hk ▸ hh.symm)
      simp [findFirst, h1]
    · rw [if_neg hk]
      simp only [findFirst, ih]

theorem buildItems_ok_spec (s : Store) (items : List OrderItem) (t : ℚ)
    (docs : List ItemDoc) (h : buildItems s items = .ok (t, docs)) :
    t = (docs.map fun d => d.line_total).sum ∧
      List.Forall₂ (snapshotRel s) items docs := by
  induction items generalizing t docs with
  | nil =>
    simp only [buildItems, Except.ok.injEq, Prod.mk.injEq] at h
    obtain ⟨ht, hd⟩ := h
    subst ht; subst hd
    simp
  | cons item rest ih =>
    rcases hk : oid item.product_id with _ | k
    · simp [buildItems, hk] at h
    simp only [buildItems, hk] at h
    rcases hp : findProduct s.products k with _ | prod
    · simp [hp] at h
    simp only [hp] at h
    rcases hb : buildItems s rest with e | ⟨t', docs'⟩
    · simp [hb] at h
    simp only [hb, Except.ok.injEq, Prod.mk.injEq] at h
    obtain ⟨ht, hd⟩ := h
    subst ht; subst hd
    obtain ⟨ihs, ihf⟩ := ih t' docs' hb
    refine ⟨by simp [ihs], List.Forall₂.cons ?_ ihf⟩
    exact ⟨k, prod, hk, hp, rfl, rfl, rfl, rfl, rfl, rfl⟩

theorem forall₂_snapshot_line_total (s : Store) (items : List OrderItem)
    (docs : List ItemDoc) (h : List.Forall₂ (snapshotRel s) items docs) :
    ∀ d ∈ docs, d.line_total = d.price * (d.qty : ℚ) := by
  induction h with
  | nil => simp
  | cons hr _ ih =>
    intro d hd
    rw [List.mem_cons] at hd
    rcases hd with rfl | hd
    · obtain ⟨k, p, _, _, _, _, _, hprice, hqty, hlt⟩ := hr
      rw [hlt, hprice, hqty]
    · exact ih d hd

/-- Exhaustive description of `create_order`: either some validation fails and
the store is returned untouched with the corresponding error, or every check
passes and the order is persisted and the slot incremented. -/
theorem create_order_cases (s : Store) (r : CreateOrderRequest) :
    (∃ e, create_order s r = (s, .error e)) ∨
    (∃ k slot total docs,
      oid r.slot_id = some k ∧ findFirst s.slots k = some slot ∧
      slot.booked < slot.capacity ∧ buildItems s r.items = .ok (total, docs) ∧
      create_order s r =
        ({ s with slots := incBookedFirst s.slots k,
                  orders := s.orders ++ [(genId s.nextId,
                    { customer_name := r.customer_name, phone := r.phone,
                      slot_id := r.slot_id, items := docs, note := r.note,
                      total := round2 total, status := "confirmed" })],
                  nextId := s.nextId + 1 },
         .ok { order_id := genId s.nextId, total := round2 total,
               status := "confirmed" })) := by
  rcases hk : oid r.slot_id with _ | k
  · exact Or.inl ⟨.invalidIdentifier, by simp [create_order, hk]⟩
  rcases hs : findFirst s.slots k with _ | slot
  · exact Or.inl ⟨.slotNotFound, by simp [create_order, hk, hs]⟩
  by_cases hc : max (slot.capacity - slot.booked) 0 ≤ 0
  · exact Or.inl ⟨.slotFull, by simp [create_order, hk, hs, hc]⟩
  rcases hb : buildItems s r.items with e | ⟨t, docs⟩
  · exact Or.inl ⟨e, by simp [create_order, hk, hs, hc, hb]⟩
  · refine Or.inr ⟨k, slot, t, docs, rfl, hs, by omega, rfl, ?_⟩
    simp [create_order, hk, hs, hc, hb]

theorem incBooked_preserves_inv (l : List (String × Slot)) (k : String) (sl : Slot)
    (hfind : findFirst l k = some sl) (hlt : sl.booked < sl.capacity)
    (hinv : ∀ p ∈ l, p.2.booked ≤ p.2.capacity) :
    ∀ p ∈ incBookedFirst l k, p.2.booked ≤ p.2.capacity := by
  induction l with
  | nil => simp [incBookedFirst]
  | cons q rest ih =>
    obtain ⟨k₀, v⟩ := q
    by_cases hk : k₀ = k
    · rw [findFirst, if_pos hk] at hfind
      obtain rfl : v = sl := by injection hfind
      simp only [incBookedFirst, if_pos hk]
      intro p hp
      rcases List.mem_cons.mp hp with rfl | hp
      · exact show v.booked + 1 ≤ v.capacity by omega
      · exact hinv p (List.mem_cons_of_mem _ hp)
    · rw [findFirst, if_neg hk] at hfind
      simp only [incBookedFirst, if_neg hk]
      intro p hp
      rcases List.mem_cons.mp hp with rfl | hp
      · exact hinv _ (List.mem_cons_self _ _)
      · exact ih hfind (fun q hq => hinv q (List.mem_cons_of_mem _ hq)) p hp

theorem buildItems_error_of_bad (s : Store) (items : List OrderItem)
    (hvalid : ∀ it ∈ items, (oid it.product_id).isSome = true)
    (hbad : ∃ it ∈ items, lookupItem s it = none) :
    ∃ pid, buildItems s items = .error (.productNotFound pid) ∧
      ∃ it ∈ items, it.product_id = pid ∧ lookupItem s it = none := by
  induction items with
  | nil => simp at hbad
  | cons item rest ih =>
    rcases hk : oid item.product_id with _ | k
    · have hv := hvalid item (List.mem_cons_self _ _)
      rw [hk] at hv
      simp at hv
    rcases hp : findProduct s.products k with _ | prod
    · refine ⟨item.product_id, ?_, item, List.mem_cons_self _ _, rfl, ?_⟩
      · simp [buildItems, hk, hp]
      · simp [lookupItem, hk, hp]
    · have hbad' : ∃ it ∈ rest, lookupItem s it = none := by
        rcases hbad with ⟨it, hit, hnone⟩
        rcases List.mem_cons.mp hit with rfl | hit
        · rw [lookupItem, hk] at hnone
          simp [hp] at hnone
        · exact ⟨it, hit, hnone⟩
      obtain ⟨pid, hbe, it, hit, hpid, hnone⟩ :=
        ih (fun it hit => hvalid it (List.mem_cons_of_mem _ hit)) hbad'
      refine ⟨pid, ?_, it, List.mem_cons_of_mem _ hit, hpid, hnone⟩
      simp [buildItems, hk, hp, hbe]

/-- C3: an order against a slot whose `booked` equals its `capacity` is
rejected with the `SlotFull` error (HTTP 400), nothing is inserted and the
store — the slot's counter included — is returned exactly as it was. -/
theorem claim_C3_slot_full_rejected (s : Store) (r : CreateOrderRequest)
    (k : String) (sl : Slot) (h1 : oid r.slot_id = some k)
    (h2 : findFirst s.slots k = some sl) (h3 : sl.booked = sl.capacity) :
    create_order s r = (s, .error .slotFull) ∧ statusCode .slotFull = 400 := by
  have hc : max (sl.capacity - sl.booked) 0 ≤ 0 := by omega
  exact ⟨by simp [create_order, h1, h2, hc], rfl⟩

/-- C4: if the slot checks pass but some item's product is absent or not
in-stock (its in-stock lookup comes back empty), `create_order` rejects the
whole request with `ProductNotFound` (HTTP 404) naming a failing item's
product identifier, and the store is returned unchanged — all-or-nothing. -/
theorem claim_C4_product_not_found_all_or_nothing (s : Store)
    (r : CreateOrderRequest) (k : String) (sl : Slot)
    (h1 : oid r.slot_id = some k) (h2 : findFirst s.slots k = some sl)
    (h3 : sl.booked < sl.capacity)
    (hvalid : ∀ it ∈ r.items, (oid it.product_id).isSome = true)
    (hbad : ∃ it ∈ r.items, lookupItem s it = none) :
    ∃ pid, create_order s r = (s, .error (.productNotFound pid)) ∧
      statusCode (.productNotFound pid) = 404 ∧
      ∃ it ∈ r.items, it.product_id = pid ∧ lookupItem s it = none := by
  obtain ⟨pid, hbe, hwit⟩ := buildItems_error_of_bad s r.items hvalid hbad
  have hc : ¬ max (sl.capacity - sl.booked) 0 ≤ 0 := by omega
  exact ⟨pid, by simp [create_order, h1, h2, hc, hbe], rfl, hwit⟩

/-- C5: on every failure path of `create_order` — invalid identifier, slot
not found, slot full, product not found — the store is returned exactly as it
was: zero order insertions and zero slot modifications. -/
theorem claim_C5_zero_writes_on_failure (s : Store) (r : CreateOrderRequest)
    (e : OrderError) (h : (create_order s r).2 = .error e) :
    (create_order s r).1 = s := by
  rcases create_order_cases s r with ⟨e', he⟩ | ⟨k, slot, total, docs, _, _, _, _, heq⟩
  · simp [he]
  · rw [heq] at h
    simp at h

/-- C6: if every slot satisfies `booked ≤ capacity` then, after any single
call to `create_order` (successful or not), every slot still satisfies
`booked ≤ capacity`. -/
theorem claim_C6_capacity_invariant (s : Store) (r : CreateOrderRequest)
    (hinv : ∀ p ∈ s.slots, p.2.booked ≤ p.2.capacity) :
    ∀ p ∈ (create_order s r).1.slots, p.2.booked ≤ p.2.capacity := by
  rcases create_order_cases s r with ⟨e, he⟩ | ⟨k, slot, total, docs, hk, hs, hcap, hb, heq⟩
  · rw [he]
    exact hinv
  · rw [heq]
    exact incBooked_preserves_inv s.slots k slot hs hcap hinv

/-- C1: for every order accepted by `create_order`, exactly one order record
is appended under the returned id; the returned total equals the persisted
total, which is `round(Σ price_i × qty_i, 2)` over the persisted items; each
persisted item's `line_total` is `price_i × qty_i`; and each persisted item
snapshots name, unit and price from the product document stored at order
time. -/
theorem claim_C1_total_rounding (s : Store) (r : CreateOrderRequest)
    (resp : OrderResponse) (h : (create_order s r).2 = Except.ok resp) :
    ∃ od : OrderDoc,
      (create_order s r).1.orders = s.orders ++ [(resp.order_id, od)] ∧
      resp.total = od.total ∧
      od.total = round2 ((od.items.map fun d => d.price * (d.qty : ℚ)).sum) ∧
      (∀ d ∈ od.items, d.line_total = d.price * (d.qty : ℚ)) ∧
      List.Forall₂ (snapshotRel s) r.items od.items := by
  rcases create_order_cases s r with ⟨e, he⟩ | ⟨k, slot, total, docs, hk, hs, hcap, hb, heq⟩
  · rw [he] at h
    cases h
  · rw [heq] at h ⊢
    simp only [Except.ok.injEq] at h
    subst h
    obtain ⟨hsum, hf⟩ := buildItems_ok_spec s r.items total docs hb
    have hlt := forall₂_snapshot_line_total s r.items docs hf
    refine ⟨_, rfl, rfl, ?_, hlt, hf⟩
    have hmap : (docs.map fun d => d.price * (d.qty : ℚ)) =
        docs.map fun d => d.line_total := by
      apply List.map_congr_left
      intro d hd
      rw [hlt d hd]
    show round2 total = _
    rw [hmap, ← hsum]

/-- C2: for every successful `create_order`, the slot named by the request's
`slot_id` has its `booked` counter incremented by exactly 1, every other
slot's document is unchanged, and exactly one new order record is appended. -/
theorem claim_C2_single_slot_increment (s : Store) (r : CreateOrderRequest)
    (resp : OrderResponse) (h : (create_order s r).2 = Except.ok resp) :
    ∃ k sl, oid r.slot_id = some k ∧ findFirst s.slots k = some sl ∧
      findFirst (create_order s r).1.slots k =
        some { sl with booked := sl.booked + 1 } ∧
      (∀ k', k' ≠ k →
        findFirst (create_order s r).1.slots k' = findFirst s.slots k') ∧
      ∃ od, (create_order s r).1.orders = s.orders ++ [(resp.order_id, od)] := by
  rcases create_order_cases s r with ⟨e, he⟩ | ⟨k, slot, total, docs, hk, hs, hcap, hb, heq⟩
  · rw [he] at h
    cases h
  · rw [heq] at h ⊢
    simp only [Except.ok.injEq] at h
    subst h
    refine ⟨k, slot, hk, hs, ?_, ?_, ⟨_, rfl⟩⟩
    · show findFirst (incBookedFirst s.slots k) k = _
      rw [findFirst_incBookedFirst_self, hs]
      rfl
    · intro k' hne
      exact findFirst_incBookedFirst_ne s.slots k k' hne

/-- C7: an order request with an empty items list against an existing slot
with remaining capacity succeeds: one order with total `0` and status
`"confirmed"` is appended, and the slot's `booked` counter is incremented by
1 — the request model puts no lower bound on the items list. -/
theorem claim_C7_empty_items_accepted (s : Store) (r : CreateOrderRequest)
    (k : String) (sl : Slot) (hempty : r.items = [])
    (h1 : oid r.slot_id = some k) (h2 : findFirst s.slots k = some sl)
    (h3 : sl.booked < sl.capacity) :
    create_order s r =
      ({ s with slots := incBookedFirst s.slots k,
                orders := s.orders ++ [(genId s.nextId,
                  { customer_name := r.customer_name, phone := r.phone,
                    slot_id := r.slot_id, items := [], note := r.note,
                    total := 0, status := "confirmed" })],
                nextId := s.nextId + 1 },
       Except.ok { order_id := genId s.nextId, total := 0,
                   status := "confirmed" }) ∧
    findFirst (incBookedFirst s.slots k) k =
      some { sl with booked := sl.booked + 1 } := by
  have hc : ¬ max (sl.capacity - sl.booked) 0 ≤ 0 := by omega
  have hr0 : round2 0 = 0 := by norm_num [round2, roundHalfEven]
  constructor
  · simp [create_order, h1, h2, hc, hempty, buildItems, hr0]
  · rw [findFirst_incBookedFirst_self, h2]
    rfl

/-! ### Seeding -/

theorem insertProducts_products_length (l : List Product) (s : Store) :
    (insertProducts s l).products.length = s.products.length + l.length := by
  induction l generalizing s with
  | nil => rfl
  | cons p rest ih =>
    rw [insertProducts, ih]
    simp
    omega

theorem insertSlots_slots_length (l : List Slot) (s : Store) :
    (insertSlots s l).slots.length = s.slots.length + l.length := by
  induction l generalizing s with
  | nil => rfl
  | cons sl rest ih =>
    rw [insertSlots, ih]
    simp
    omega

theorem insertSlots_products (l : List Slot) (s : Store) :
    (insertSlots s l).products = s.products := by
  induction l generalizing s with
  | nil => rfl
  | cons sl rest ih =>
    rw [insertSlots, ih]

theorem seedProductsStep_of_nonempty (s : Store)
    (h : s.products.length ≠ 0) : seedProductsStep s = s := by
  rw [seedProductsStep, if_neg h]

theorem seedSlotsStep_of_nonempty (s : Store)
    (h : s.slots.length ≠ 0) : seedSlotsStep s = s := by
  rw [seedSlotsStep, if_neg h]

theorem seedProductsStep_products_ne (s : Store) :
    (seedProductsStep s).products.length ≠ 0 := by
  rw [seedProductsStep]
  by_cases h : s.products.length = 0
  · rw [if_pos h, insertProducts_products_length]
    simp [seedCatalog]
  · rw [if_neg h]
    exact h

theorem seedSlotsStep_slots_ne (s : Store) :
    (seedSlotsStep s).slots.length ≠ 0 := by
  rw [seedSlotsStep]
  by_cases h : s.slots.length = 0
  · rw [if_pos h, insertSlots_slots_length]
    simp [seedSlots]
  · rw [if_neg h]
    exact h

theorem seedSlotsStep_products (s : Store) :
    (seedSlotsStep s).products = s.products := by
  rw [seedSlotsStep]
  by_cases h : s.slots.length = 0
  · rw [if_pos h, insertSlots_products]
  · rw [if_neg h]

/-- C8: seeding is idempotent — running `seed` twice in a row yields exactly
the store produced by running it once, since products are inserted only into
an empty product collection and slots only into an empty slot collection. -/
theorem claim_C8_seed_idempotent (s : Store) : seed (seed s) = seed s := by
  unfold seed
  have hp : (seedSlotsStep (seedProductsStep s)).products.length ≠ 0 := by
    rw [seedSlotsStep_products]
    exact seedProductsStep_products_ne s
  rw [seedProductsStep_of_nonempty _ hp,
    seedSlotsStep_of_nonempty _ (seedSlotsStep_slots_ne (seedProductsStep s))]

/-! ### Listings -/

/-- C9: the product listing returns exactly the in-stock products — never an
item whose `in_stock` is false — and the slot listing returns one view per
slot, each carrying `available = max(capacity - booked, 0)`. -/
theorem claim_C9_listings (s : Store) :
    (∀ v ∈ list_products s, v.in_stock = true) ∧
    list_products s = (s.products.filter fun p => p.2.in_stock).map (fun p =>
      { id := p.1, name := p.2.name, price := p.2.price, unit := p.2.unit,
        stock := p.2.stock, image := p.2.image, category := p.2.category,
        in_stock := p.2.in_stock }) ∧
    (list_slots s).length = s.slots.length ∧
    (∀ v ∈ list_slots s, v.available = max (v.capacity - v.booked) 0) ∧
    (∀ p ∈ s.slots,
      ({ id := p.1, label := p.2.label, capacity := p.2.capacity,
         booked := p.2.booked, available := max (p.2.capacity - p.2.booked) 0 }
        : SlotView) ∈ list_slots s) := by
  refine ⟨?_, rfl, ?_, ?_, ?_⟩
  · intro v hv
    simp only [list_products, get_documents, List.mem_map, List.mem_filter] at hv
    obtain ⟨a, ⟨_, hstock⟩, rfl⟩ := hv
    exact hstock
  · simp [list_slots, get_documents]
  · intro v hv
    simp only [list_slots, get_documents, List.mem_map] at hv
    obtain ⟨a, _, rfl⟩ := hv
    rfl
  · intro p hp
    simp only [list_slots, get_documents, List.mem_map]
    exact ⟨p, by simpa using hp, rfl⟩

theorem findProduct_mapStocks (f : String → ℤ) (l : List (String × Product))
    (k : String) :
    findProduct (mapStocks f l) k =
      (findProduct l k).map fun p => { p with stock := f k } := by
  induction l with
  | nil => rfl
  | cons q rest ih =>
    obtain ⟨k₀, v⟩ := q
    by_cases h : k₀ = k ∧ v.in_stock
    · obtain ⟨rfl, hin⟩ := h
      simp [mapStocks, findProduct, hin]
    · simp only [mapStocks, List.map_cons, findProduct]
      rw [if_neg (by simpa using h), if_neg h]
      exact ih

theorem buildItems_setStocks (f : String → ℤ) (s : Store)
    (items : List OrderItem) :
    buildItems (setStocks f s) items = buildItems s items := by
  induction items with
  | nil => rfl
  | cons item rest ih =>
    rcases hk : oid item.product_id with _ | k
    · simp [buildItems, hk]
    · simp only [buildItems, hk]
      rw [show (setStocks f s).products = mapStocks f s.products from rfl,
        findProduct_mapStocks]
      rcases hp : findProduct s.products k with _ | prod
      · rfl
      · simp only [Option.map_some']
        rw [ih]

theorem create_order_setStocks (f : String → ℤ) (s : Store)
    (r : CreateOrderRequest) :
    create_order (setStocks f s) r =
      (setStocks f (create_order s r).1, (create_order s r).2) := by
  have hslots : (setStocks f s).slots = s.slots := rfl
  rcases hk : oid r.slot_id with _ | k
  · simp [create_order, hk, setStocks]
  rcases hs : findFirst s.slots k with _ | slot
  · simp [create_order, hk, hslots, hs, setStocks]
  by_cases hc : max (slot.capacity - slot.booked) 0 ≤ 0
  · simp [create_order, hk, hslots, hs, hc, setStocks]
  have hbs : buildItems
      { products := mapStocks f s.products, slots := s.slots,
        orders := s.orders, nextId := s.nextId } r.items =
      buildItems s r.items := buildItems_setStocks f s r.items
  rcases hb : buildItems s r.items with e | ⟨t, docs⟩
  · simp [create_order, hk, hslots, hs, hc, hbs, hb, setStocks]
  · simp [create_order, hk, hslots, hs, hc, hbs, hb, setStocks]

theorem except_isOk_ok {ε α : Type} (a : α) :
    (Except.ok a : Except ε α).isOk = true := rfl

theorem except_isOk_error {ε α : Type} (e : ε) :
    (Except.error e : Except ε α).isOk = false := rfl

theorem buildItems_setQtys_isOk (g : OrderItem → ℤ) (s : Store)
    (items : List OrderItem) :
    (buildItems s (items.map fun it => { it with qty := g it })).isOk =
      (buildItems s items).isOk := by
  induction items with
  | nil => rfl
  | cons item rest ih =>
    simp only [List.map_cons]
    rcases hk : oid item.product_id with _ | k
    · simp [buildItems, hk]
    simp only [buildItems, hk]
    rcases hp : findProduct s.products k with _ | prod
    · simp [hp]
    simp only [hp]
    rcases hb1 : buildItems s (rest.map fun it => { it with qty := g it })
        with e1 | ⟨t1, d1⟩
    · rcases hb2 : buildItems s rest with e2 | ⟨t2, d2⟩
      · simp [hb1, except_isOk_error]
      · rw [hb1, hb2] at ih
        simp [except_isOk_error, except_isOk_ok] at ih
    · rcases hb2 : buildItems s rest with e2 | ⟨t2, d2⟩
      · rw [hb1, hb2] at ih
        simp [except_isOk_error, except_isOk_ok] at ih
      · simp [hb1, except_isOk_ok]

theorem create_order_setQtys_isOk (g : OrderItem → ℤ) (s : Store)
    (r : CreateOrderRequest) :
    (create_order s (setQtys g r)).2.isOk = (create_order s r).2.isOk := by
  rcases hk : oid r.slot_id with _ | k
  · simp [create_order, setQtys, hk]
  rcases hs : findFirst s.slots k with _ | slot
  · simp [create_order, setQtys, hk, hs]
  by_cases hc : max (slot.capacity - slot.booked) 0 ≤ 0
  · simp [create_order, setQtys, hk, hs, hc]
  simp only [create_order, setQtys, hk, hs, if_neg hc]
  have hq := buildItems_setQtys_isOk g s r.items
  rcases hb1 : buildItems s (r.items.map fun it => { it with qty := g it })
      with e1 | ⟨t1, d1⟩
  · rcases hb2 : buildItems s r.items with e2 | ⟨t2, d2⟩
    · simp [hb1, except_isOk_error]
    · rw [hb1, hb2] at hq
      simp [except_isOk_error, except_isOk_ok] at hq
  · rcases hb2 : buildItems s r.items with e2 | ⟨t2, d2⟩
    · rw [hb1, hb2] at hq
      simp [except_isOk_error, except_isOk_ok] at hq
    · simp [hb1, except_isOk_ok]

/-- C10: `create_order` never consults a product's `stock` count against the
requested quantity and never modifies any product document: the product
collection is unchanged by every call, rewriting all stock counters changes
nothing but those counters in the outcome, and rescaling the requested
quantities arbitrarily never changes whether the order is accepted. -/
theorem claim_C10_stock_never_consulted (s : Store) (r : CreateOrderRequest)
    (f : String → ℤ) (g : OrderItem → ℤ) :
    (create_order s r).1.products = s.products ∧
    create_order (setStocks f s) r =
      (setStocks f (create_order s r).1, (create_order s r).2) ∧
    (create_order s (setQtys g r)).2.isOk = (create_order s r).2.isOk := by
  refine ⟨?_, create_order_setStocks f s r, create_order_setQtys_isOk g s r⟩
  rcases create_order_cases s r with ⟨e, he⟩ | ⟨k, slot, total, docs, _, _, _, _, heq⟩
  · rw [he]
  · rw [heq]

theorem claim_C1_witness :
    ∃ od : OrderDoc,
      (create_order sampleStore sampleRequest).1.orders =
        sampleStore.orders ++ [(sampleResp.order_id, od)] ∧
      sampleResp.total = od.total ∧
      od.total = round2 ((od.items.map fun d => d.price * (d.qty : ℚ)).sum) ∧
      (∀ d ∈ od.items, d.line_total = d.price * (d.qty : ℚ)) ∧
      List.Forall₂ (snapshotRel sampleStore) sampleRequest.items od.items :=
  claim_C1_total_rounding sampleStore sampleRequest sampleResp
    (by with_unfolding_all rfl)

theorem claim_C2_witness :
    ∃ k sl, oid sampleRequest.slot_id = some k ∧
      findFirst sampleStore.slots k = some sl ∧
      findFirst (create_order sampleStore sampleRequest).1.slots k =
        some { sl with booked := sl.booked + 1 } ∧
      (∀ k', k' ≠ k →
        findFirst (create_order sampleStore sampleRequest).1.slots k' =
          findFirst sampleStore.slots k') ∧
      ∃ od, (create_order sampleStore sampleRequest).1.orders =
        sampleStore.orders ++ [(sampleResp.order_id, od)] :=
  claim_C2_single_slot_increment sampleStore sampleRequest sampleResp
    (by with_unfolding_all rfl)

theorem claim_C3_witness :
    create_order sampleStore sampleFullRequest =
      (sampleStore, .error .slotFull) ∧ statusCode .slotFull = 400 :=
  claim_C3_slot_full_rejected sampleStore sampleFullRequest
    "dddddddddddddddddddddddd"
    { label := "Today 17:00-17:30", capacity := 10, booked := 10 }
    (by with_unfolding_all rfl) (by with_unfolding_all rfl) rfl

theorem claim_C4_witness :
    ∃ pid, create_order sampleStore sampleBadProductRequest =
        (sampleStore, .error (.productNotFound pid)) ∧
      statusCode (.productNotFound pid) = 404 ∧
      ∃ it ∈ sampleBadProductRequest.items,
        it.product_id = pid ∧ lookupItem sampleStore it = none :=
  claim_C4_product_not_found_all_or_nothing sampleStore sampleBadProductRequest
    "aaaaaaaaaaaaaaaaaaaaaaaa"
    { label := "Today 10:00-10:30", capacity := 10, booked := 3 }
    (by with_unfolding_all rfl) (by with_unfolding_all rfl) (by decide)
    (by with_unfolding_all decide) (by with_unfolding_all decide)

theorem claim_C5_witness :
    (create_order sampleStore sampleInvalidRequest).1 = sampleStore :=
  claim_C5_zero_writes_on_failure sampleStore sampleInvalidRequest
    .invalidIdentifier (by with_unfolding_all rfl)

theorem claim_C6_witness :
    (("aaaaaaaaaaaaaaaaaaaaaaaa",
      ({ label := "Today 10:00-10:30", capacity := 10, booked := 4 } : Slot))
        : String × Slot).2.booked ≤
    (("aaaaaaaaaaaaaaaaaaaaaaaa",
      ({ label := "Today 10:00-10:30", capacity := 10, booked := 4 } : Slot))
        : String × Slot).2.capacity :=
  claim_C6_capacity_invariant sampleStore sampleRequest (by decide) _
    (by with_unfolding_all decide)

theorem claim_C7_witness :
    create_order sampleStore sampleEmptyRequest =
      ({ sampleStore with
          slots := incBookedFirst sampleStore.slots "aaaaaaaaaaaaaaaaaaaaaaaa",
          orders := sampleStore.orders ++ [(genId sampleStore.nextId,
            { customer_name := sampleEmptyRequest.customer_name,
              phone := sampleEmptyRequest.phone,
              slot_id := sampleEmptyRequest.slot_id, items := [],
              note := sampleEmptyRequest.note,
              total := 0, status := "confirmed" })],
          nextId := sampleStore.nextId + 1 },
       Except.ok { order_id := genId sampleStore.nextId, total := 0,
                   status := "confirmed" }) ∧
    findFirst (incBookedFirst sampleStore.slots "aaaaaaaaaaaaaaaaaaaaaaaa")
        "aaaaaaaaaaaaaaaaaaaaaaaa" =
      some { label := "Today 10:00-10:30", capacity := 10, booked := 4 } :=
  claim_C7_empty_items_accepted sampleStore sampleEmptyRequest
    "aaaaaaaaaaaaaaaaaaaaaaaa"
    { label := "Today 10:00-10:30", capacity := 10, booked := 3 }
    rfl (by with_unfolding_all rfl) (by with_unfolding_all rfl) (by decide)

theorem claim_C9_witness :
    ({ id := "bbbbbbbbbbbbbbbbbbbbbbbb", name := "Bananas", price := 79/100,
       unit := "each", stock := 200, image := none,
       category := some "Produce", in_stock := true } : ProductView).in_stock
      = true ∧
    ({ id := "aaaaaaaaaaaaaaaaaaaaaaaa", label := "Today 10:00-10:30",
       capacity := 10, booked := 3, available := 7 } : SlotView).available =
      max (10 - 3 : ℤ) 0 :=
  ⟨(claim_C9_listings sampleStore).1 _ (by with_unfolding_all decide),
   (claim_C9_listings sampleStore).2.2.2.1 _ (by with_unfolding_all decide)⟩

end GroceryShop
